import Mathlib

/-!
Verification of the COVID-dashboard data-generation and visualization
scripts (`scripts/data_gen.py`, `scripts/viz.py`).

The Python code is shallowly embedded: Python ints become `Int`, Python
floats become `ℚ` (only literal constants and a discarded quotient are
involved), lists become `List`, a raised exception becomes an explicit
exceptional result, and printing is recorded as an explicit list of
message strings.
-/

namespace Dashboard

/-- A Python exception relevant to these scripts. -/
inductive PyExn where
  | zeroDivisionError
  deriving DecidableEq, Repr

/-- Outcome of calling a Python function: either a normal return or a
raised exception that escapes the function; in both cases the list of
lines the function printed is recorded (`create_summary_stats` prints
nothing on any path). -/
inductive PyResult (α : Type) where
  | ret (printed : List String) (val : α)
  | raised (printed : List String) (e : PyExn)
  deriving DecidableEq, Repr

/-- Proleptic Gregorian ordinal of a calendar date, as the Python method
`datetime.toordinal()`: day 1 is 0001-01-01.  `datetime(y, m, d)` is
represented by this day number; adding `timedelta(weeks=i)` adds `7*i`. -/
def toordinal (y m d : Nat) : Int :=
  let py := y - 1
  let leap : Bool := y % 4 == 0 && (y % 100 != 0 || y % 400 == 0)
  let before : Nat :=
    match m with
    | 1 => 0 | 2 => 31 | 3 => 59 | 4 => 90 | 5 => 120 | 6 => 151
    | 7 => 181 | 8 => 212 | 9 => 243 | 10 => 273 | 11 => 304 | _ => 334
  let before := if leap && m > 2 then before + 1 else before
  ((365 * py + py / 4 - py / 100 + py / 400 + before + d : Nat) : Int)

/-- The four parallel columns returned by `generate_static_covid_data`:
dates (as Python ordinal day numbers), week labels, cases, deaths. -/
structure StaticData where
  dates : List Int
  week_labels : List String
  cases : List Int
  deaths : List Int
  deriving Repr

/-- Embedding of `generate_static_covid_data` (data_gen.py, lines 12-45):
the three literal 18-entry tables, plus dates built as
`datetime(2025, 1, 1) + timedelta(weeks=i)` for `i in range(18)`. -/
def generate_static_covid_data : StaticData :=
  { week_labels :=
      ["Jan 1", "Jan 8", "Jan 15", "Jan 22", "Jan 29",
       "Feb 5", "Feb 12", "Feb 19", "Feb 26", "Mar 5",
       "Mar 12", "Mar 19", "Mar 26", "Apr 2", "Apr 9",
       "Apr 16", "Apr 23", "Apr 30"]
    cases :=
      [45000, 52000, 61000, 48000, 39000,
       35000, 42000, 38000, 31000, 28000,
       25000, 22000, 26000, 30000, 27000,
       24000, 21000, 19000]
    deaths :=
      [820, 950, 1100, 1200, 980,
       750, 680, 720, 650, 580,
       520, 460, 500, 580, 520,
       480, 420, 380]
    dates := (List.range 18).map (fun i => toordinal 2025 1 1 + 7 * i) }

/-- The record type returned by `create_summary_stats`. -/
structure SummaryStats where
  total_cases_28d : Int
  total_deaths_28d : Int
  case_fatality_rate : ℚ
  reporting_countries : Int
  deriving DecidableEq, Repr

/-- Python slice `l[-4:]`: the last `min 4 l.length` elements. -/
def lastFour (l : List Int) : List Int :=
  l.drop (l.length - 4)

/-- Embedding of `create_summary_stats` (data_gen.py, lines 47-66).
It sums the last four cases and deaths, computes
`(total_deaths_28d / total_cases_28d) * 100` (a raised
`ZeroDivisionError` when the case sum is 0, since both operands are
Python ints), binds `reporting_countries = 89`, and then returns the
hard-coded HTML display record, discarding the computed sums and rate.
The function contains no `try`/`except` and prints nothing, so the
printed-lines component is `[]` on every path. -/
def create_summary_stats (cases deaths : List Int) : PyResult SummaryStats :=
  let total_cases_28d := (lastFour cases).sum
  let total_deaths_28d := (lastFour deaths).sum
  if total_cases_28d = 0 then
    .raised [] .zeroDivisionError
  else
    let _case_fatality_rate : ℚ :=
      ((total_deaths_28d : ℚ) / (total_cases_28d : ℚ)) * 100
    let reporting_countries : Int := 89
    .ret [] { total_cases_28d := 25463
              total_deaths_28d := 1458
              case_fatality_rate := 5.7
              reporting_countries := reporting_countries }

/-- The constant record `create_summary_stats` returns on every
non-raising path: the literal display values from `dashboard.html`. -/
def overrideSummary : SummaryStats :=
  { total_cases_28d := 25463
    total_deaths_28d := 1458
    case_fatality_rate := 5.7
    reporting_countries := 89 }

/-- The labeled bundle built by `save_numpy_data` (data_gen.py,
lines 68-88): the three stored columns (after their `dtype` coercions)
plus derived count, sums, maxima and minima (computed on the original
Python lists, before any coercion). -/
structure NumpyBundle where
  week_labels : List String
  cases : List Int
  deaths : List Int
  weeks_count : Nat
  total_cases : Int
  total_deaths : Int
  max_cases : Int
  max_deaths : Int
  min_cases : Int
  min_deaths : Int
  deriving DecidableEq, Repr

/-- The value a Python int takes when stored in a numpy `int32` cell:
reduction modulo `2^32` into `[-2^31, 2^31)`.  This is the classic
numpy unsafe-cast wraparound; newer numpy instead raises
`OverflowError` for an out-of-range Python int — under either
semantics the stored column agrees with the original list exactly on
values already in `[-2^31, 2^31)`, where this cast is the identity. -/
def int32cast (x : Int) : Int :=
  (x + 2 ^ 31) % 2 ^ 32 - 2 ^ 31

/-- Python `max(l)` on a list of ints: `none` models the `ValueError`
raised on an empty list. -/
def pymax : List Int → Option Int
  | [] => none
  | x :: xs => some (xs.foldl max x)

/-- Python `min(l)` on a list of ints: `none` models the `ValueError`
raised on an empty list. -/
def pymin : List Int → Option Int
  | [] => none
  | x :: xs => some (xs.foldl min x)

/-- Embedding of `save_numpy_data` (data_gen.py, lines 68-88): builds
the dictionary saved to `sample.npy`.  The stored `cases`/`deaths`
columns go through `np.array(..., dtype=np.int32)`, modelled by
`int32cast` on each element, and the stored `week_labels` go through
`dtype='U10'`, modelled by truncating each label to 10 characters;
`weeks_count`, the sums and the max/min scalars are computed on the
original Python lists, before those coercions.  `none` models the
`ValueError` that `max`/`min` raise when a column is empty; the
`np.save` call itself carries no information about the values and is
not modelled. -/
def save_numpy_data (cases deaths : List Int) (week_labels : List String) :
    Option NumpyBundle :=
  match pymax cases, pymax deaths, pymin cases, pymin deaths with
  | some mxc, some mxd, some mnc, some mnd =>
      some { week_labels := week_labels.map (fun s => s.take 10)
             cases := cases.map int32cast
             deaths := deaths.map int32cast
             weeks_count := week_labels.length
             total_cases := cases.sum
             total_deaths := deaths.sum
             max_cases := mxc
             max_deaths := mxd
             min_cases := mnc
             min_deaths := mnd }
  | _, _, _, _ => none

/-! ## Embedding of `scripts/viz.py` (the renderer) -/

/-- The files the renderer reads, as the writer leaves them on disk:
`none` means the file is absent (reading it raises
`FileNotFoundError`).  The parsed contents themselves are irrelevant to
the claims about the renderer, so each present file is a placeholder
token. -/
structure VizFiles where
  dataframe_csv : Option Unit
  dataframe2_csv : Option Unit
  sample_npy : Option Unit

/-- Embedding of `load_data` (viz.py, lines 17-34): reads the three
files inside one `try`; a `FileNotFoundError` from any read is caught,
two messages are printed, and `(None, None, None)` is returned
(modelled as `none`).  On success the three loaded objects are
returned. -/
def load_data (fs : VizFiles) : List String × Option (Unit × Unit × Unit) :=
  match fs.dataframe_csv with
  | none =>
      (["Error: dataframe.csv not found",
        "Please run data_gen.py first to generate the data files."], none)
  | some df =>
      match fs.dataframe2_csv with
      | none =>
          (["Error: dataframe2.csv not found",
            "Please run data_gen.py first to generate the data files."], none)
      | some stats_df =>
          match fs.sample_npy with
          | none =>
              (["Error: sample.npy not found",
                "Please run data_gen.py first to generate the data files."], none)
          | some np_data => ([], some (df, stats_df, np_data))

/-- How the `main` function of the renderer (viz.py, lines 252-282) ends: an early
`return` after `load_data` came back empty, or the full run through
figure creation, static export and the Dash server. -/
inductive VizOutcome where
  | earlyReturn
  | ranDashboard
  deriving DecidableEq, Repr

/-- Embedding of the `main` function of the renderer (viz.py, lines 252-282) up to
the decision the claims are about: it calls `load_data` and, when the
dataframe is `None`, returns early with only the messages `load_data`
printed; otherwise it proceeds to build and serve the dashboard.  No
exception escapes on the early-return path. -/
def viz_main (fs : VizFiles) : List String × VizOutcome :=
  let loaded := load_data fs
  match loaded.2 with
  | none => (loaded.1, .earlyReturn)
  | some _ => (loaded.1 ++ ["✓ Data loaded successfully"], .ranDashboard)

/-- What `save_static_outputs` (viz.py, lines 234-250) did in one call.
`raised = false` records that the call returned normally. -/
structure SaveOutcome where
  htmlWritten : Bool
  pngWritten : Bool
  printed : List String
  raised : Bool
  deriving DecidableEq, Repr

/-- Embedding of `save_static_outputs` (viz.py, lines 234-250).  The
HTML export runs first, unconditionally.  The PNG export sits alone in
a `try` whose `except Exception` prints a warning and a hint and falls
through, so the function returns normally whether or not
`fig.write_image` fails; `pngFailure` is the exception message when it
does. -/
def save_static_outputs (pngFailure : Option String) : SaveOutcome :=
  match pngFailure with
  | none =>
      { htmlWritten := true
        pngWritten := true
        printed := ["✓ Saved interactive dashboard to outputs/covid_dashboard.html",
                    "✓ Saved screenshot to outputs/screenshot.png"]
        raised := false }
  | some e =>
      { htmlWritten := true
        pngWritten := false
        printed := ["✓ Saved interactive dashboard to outputs/covid_dashboard.html",
                    "⚠ Could not save PNG screenshot: " ++ e,
                    "  Note: PNG export requires kaleido package: pip install kaleido"]
        raised := false }

/-! ## Random-mode generator (modelled from the spec) -/

/-- Modelled from the spec: the statistical random-mode generator
(spec section 4.1, steps 1-5) is not among the files under `src/`; only
the hand-literal mode is.  Following the spec, the baseline trend falls
linearly from a high start to a low end across `W` points, is
seasonally modulated by `1 + A*sin(2*pi*i/(W-1))` with amplitude
`A = 0.3`, gets independent Gaussian noise added, and is clamped to the
floor 15000 and truncated to integer.  The sine values and the noise
draws are supplied as explicit sequences of rationals (the design notes of the spec demand an explicit random source passed in), so the
clamp-and-truncate step is the only arithmetic fixed here. -/
def random_cases (W : Nat) (hi lo : ℚ) (sinVals noise : Nat → ℚ) : List Int :=
  (List.range W).map (fun (i : Nat) =>
    let trend : ℚ := hi + (lo - hi) * (i : ℚ) / ((W : ℚ) - 1)
    let modulated : ℚ := trend * (1 + (3 / 10) * sinVals i)
    let noisy : ℚ := modulated + noise i
    Int.floor (max (15000 : ℚ) noisy))

/-- Modelled from the spec: the random-mode death series (spec section
4.1, step 5).  `deaths[i]` is `cases[(i-2) mod W]` (circular
wraparound for the first two indices) scaled by the fatality ratio
0.025, plus supplied Gaussian noise, clamped to the floor 200 and
truncated to integer. -/
def random_deaths (W : Nat) (cases : List Int) (noise : Nat → ℚ) : List Int :=
  (List.range W).map (fun (i : Nat) =>
    let lagged : ℚ := ((cases.getD ((i + W - 2) % W) 0 : Int) : ℚ)
    let scaled : ℚ := lagged * (25 / 1000)
    let noisy : ℚ := scaled + noise i
    Int.floor (max (200 : ℚ) noisy))

/-! ## Helper lemmas -/

theorem foldl_max_mem (x : Int) (xs : List Int) : xs.foldl max x ∈ x :: xs := by
  induction xs generalizing x with
  | nil => simp
  | cons y ys ih =>
      have h := ih (max x y)
      simp only [List.foldl_cons]
      rcases List.mem_cons.mp h with h1 | h2
      · rcases max_choice x y with hx | hy
        · rw [h1, hx]; exact List.mem_cons_self _ _
        · rw [h1, hy]; exact List.mem_cons_of_mem _ (List.mem_cons_self _ _)
      · exact List.mem_cons_of_mem _ (List.mem_cons_of_mem _ h2)

theorem foldl_max_init_le (xs : List Int) (x : Int) : x ≤ xs.foldl max x := by
  induction xs generalizing x with
  | nil => exact le_refl x
  | cons z zs ih => exact le_trans (le_max_left x z) (ih (max x z))

theorem le_foldl_max (x : Int) (xs : List Int) :
    ∀ y ∈ x :: xs, y ≤ xs.foldl max x := by
  induction xs generalizing x with
  | nil => intro y hy; rw [List.mem_singleton] at hy; simp [hy]
  | cons z zs ih =>
      intro y hy
      simp only [List.foldl_cons]
      rcases List.mem_cons.mp hy with h1 | h2
      · subst h1; exact le_trans (le_max_left y z) (foldl_max_init_le zs (max y z))
      · rcases List.mem_cons.mp h2 with h3 | h4
        · subst h3; exact le_trans (le_max_right x y) (foldl_max_init_le zs (max x y))
        · exact ih (max x z) y (List.mem_cons_of_mem _ h4)

theorem foldl_min_mem (x : Int) (xs : List Int) : xs.foldl min x ∈ x :: xs := by
  induction xs generalizing x with
  | nil => simp
  | cons y ys ih =>
      have h := ih (min x y)
      simp only [List.foldl_cons]
      rcases List.mem_cons.mp h with h1 | h2
      · rcases min_choice x y with hx | hy
        · rw [h1, hx]; exact List.mem_cons_self _ _
        · rw [h1, hy]; exact List.mem_cons_of_mem _ (List.mem_cons_self _ _)
      · exact List.mem_cons_of_mem _ (List.mem_cons_of_mem _ h2)

theorem foldl_min_le_init (xs : List Int) (x : Int) : xs.foldl min x ≤ x := by
  induction xs generalizing x with
  | nil => exact le_refl x
  | cons z zs ih => exact le_trans (ih (min x z)) (min_le_left x z)

theorem foldl_min_le (x : Int) (xs : List Int) :
    ∀ y ∈ x :: xs, xs.foldl min x ≤ y := by
  induction xs generalizing x with
  | nil => intro y hy; rw [List.mem_singleton] at hy; simp [hy]
  | cons z zs ih =>
      intro y hy
      simp only [List.foldl_cons]
      rcases List.mem_cons.mp hy with h1 | h2
      · subst h1; exact le_trans (foldl_min_le_init zs (min y z)) (min_le_left y z)
      · rcases List.mem_cons.mp h2 with h3 | h4
        · subst h3; exact le_trans (foldl_min_le_init zs (min x y)) (min_le_right x y)
        · exact ih (min x z) y (List.mem_cons_of_mem _ h4)

theorem int32cast_eq_self (x : Int) (h1 : -2 ^ 31 ≤ x) (h2 : x < 2 ^ 31) :
    int32cast x = x := by
  unfold int32cast
  rw [Int.emod_eq_of_lt (by linarith) (by linarith)]
  ring

theorem map_int32cast_id (l : List Int)
    (h : ∀ x ∈ l, -2 ^ 31 ≤ x ∧ x < 2 ^ 31) :
    l.map int32cast = l := by
  induction l with
  | nil => rfl
  | cons a as ih =>
      have ha := h a (List.mem_cons_self a as)
      simp only [List.map_cons, int32cast_eq_self a ha.1 ha.2,
        ih (fun x hx => h x (List.mem_cons_of_mem _ hx))]

/-! ## Claims -/

/-- C1 counterexample: on the fixed 18-entry table the summary
calculator does NOT return the computed values 91000 / 1800; it returns
the hard-coded display record unconditionally — no override mode is
selected anywhere (the function has no such parameter). -/
theorem C1_cex :
    create_summary_stats (generate_static_covid_data).cases
        (generate_static_covid_data).deaths = .ret [] overrideSummary ∧
    overrideSummary.total_cases_28d ≠ 91000 ∧
    overrideSummary.total_deaths_28d ≠ 1800 := by
  refine ⟨by rfl, by decide, by decide⟩

/-- C1 (amended): for every input whose last-4 case sum is nonzero,
`create_summary_stats` returns the hard-coded display record
{25463, 1458, 5.7, 89}; the computed sums and rate are discarded, and
the override is unconditional — there is no configuration choice. -/
theorem C1_override_unconditional (cases deaths : List Int)
    (h : (lastFour cases).sum ≠ 0) :
    create_summary_stats cases deaths = .ret [] overrideSummary := by
  simp only [create_summary_stats, if_neg h, overrideSummary]

/-- C1 witness: the amended theorem applied to the fixed table. -/
theorem C1_override_unconditional_witness :
    create_summary_stats (generate_static_covid_data).cases
        (generate_static_covid_data).deaths = .ret [] overrideSummary :=
  C1_override_unconditional (generate_static_covid_data).cases
    (generate_static_covid_data).deaths (by decide)

/-- C2 counterexample: the fixed-table generator takes no width
parameter and always returns 18 entries, so "for all W ≥ 3 it returns
exactly W entries" is false (already at W = 3). -/
theorem C2_cex :
    ¬ ∀ W : Nat, 3 ≤ W → (generate_static_covid_data).cases.length = W := by
  intro h
  exact absurd (h 3 (by norm_num)) (by decide)

/-- C2 (amended): the deterministic fixed-table generator is
parameterless and returns exactly 18 entries in every column, with the
literal published values: entry 1 has cases 45000 and deaths 820 and
entry 18 has cases 19000 and deaths 380. -/
theorem C2_fixed_table :
    (generate_static_covid_data).cases.length = 18 ∧
    (generate_static_covid_data).deaths.length = 18 ∧
    (generate_static_covid_data).week_labels.length = 18 ∧
    (generate_static_covid_data).dates.length = 18 ∧
    (generate_static_covid_data).cases[0]? = some 45000 ∧
    (generate_static_covid_data).deaths[0]? = some 820 ∧
    (generate_static_covid_data).cases[17]? = some 19000 ∧
    (generate_static_covid_data).deaths[17]? = some 380 :=
  ⟨rfl, rfl, rfl, rfl, rfl, rfl, rfl, rfl⟩

/-- C3 counterexample: on an all-zero last-4 case sum the division by
zero is NOT explicitly handled: `create_summary_stats` prints nothing
(the printed-lines component is `[]`) and returns no value — the
`ZeroDivisionError` escapes the function unhandled, so no error is
reported. -/
theorem C3_cex :
    create_summary_stats [0, 0, 0, 0] [0, 0, 0, 0] =
      .raised [] .zeroDivisionError := by rfl

/-- C3 (amended): for every input whose last-4 case sum is zero, the
division in the case-fatality-rate calculation raises a
`ZeroDivisionError` that escapes `create_summary_stats` unhandled, with
no message printed; the function never silently returns a non-finite
rate, but neither does it report an error. -/
theorem C3_zero_division_raises (cases deaths : List Int)
    (h : (lastFour cases).sum = 0) :
    create_summary_stats cases deaths = .raised [] .zeroDivisionError := by
  simp only [create_summary_stats, if_pos h]

/-- C3 witness: the amended theorem applied to all-zero inputs. -/
theorem C3_zero_division_raises_witness :
    create_summary_stats [0, 0, 0, 0] [5, 5, 5, 5] =
      .raised [] .zeroDivisionError :=
  C3_zero_division_raises [0, 0, 0, 0] [5, 5, 5, 5] (by decide)

/-- C4: when the output files of the writer are absent, `load_data` catches
the `FileNotFoundError`, returns no data and prints the advisory
message, and the `main` function of the renderer ends that stage with a clean early
return — no exception escapes. -/
theorem C4_missing_files_clean (fs : VizFiles)
    (h1 : fs.dataframe_csv = none) (_h2 : fs.dataframe2_csv = none)
    (_h3 : fs.sample_npy = none) :
    (load_data fs).2 = none ∧
    "Please run data_gen.py first to generate the data files." ∈ (load_data fs).1 ∧
    (viz_main fs).2 = VizOutcome.earlyReturn := by
  simp [load_data, viz_main, h1]

/-- C4 witness: the theorem applied to the empty filesystem. -/
theorem C4_missing_files_clean_witness :
    (load_data ⟨none, none, none⟩).2 = none ∧
    "Please run data_gen.py first to generate the data files." ∈
      (load_data ⟨none, none, none⟩).1 ∧
    (viz_main ⟨none, none, none⟩).2 = VizOutcome.earlyReturn :=
  C4_missing_files_clean ⟨none, none, none⟩ rfl rfl rfl

/-- C5: every entry of the generated series has non-negative counts:
for every member of the cases column and of the deaths column,
the (integer) value is ≥ 0. -/
theorem C5_counts_nonneg :
    (∀ c ∈ (generate_static_covid_data).cases, 0 ≤ c) ∧
    (∀ d ∈ (generate_static_covid_data).deaths, 0 ≤ d) := by
  decide

/-- C5 witness: the theorem applied to the first entry of each column. -/
theorem C5_counts_nonneg_witness : (0 : Int) ≤ 45000 ∧ (0 : Int) ≤ 820 :=
  ⟨C5_counts_nonneg.1 45000 (by decide), C5_counts_nonneg.2 820 (by decide)⟩

/-- C6: dates start at the fixed origin 2025-01-01 (as an ordinal day
number) and `dates[i] = origin + 7*i`; hence consecutive dates differ
by exactly 7 days and the column is strictly ascending. -/
theorem C6_dates_weekly :
    (∀ i : Nat, i < 18 →
      (generate_static_covid_data).dates[i]? =
        some (toordinal 2025 1 1 + 7 * (i : Int))) ∧
    (∀ i : Nat, i < 17 →
      (generate_static_covid_data).dates[i + 1]? =
        ((generate_static_covid_data).dates[i]?).map (· + 7)) ∧
    List.Sorted (· < ·) (generate_static_covid_data).dates := by
  refine ⟨by decide, by decide, by decide⟩

/-- C6 witness: the first conjunct of the theorem applied at index 2. -/
theorem C6_dates_weekly_witness :
    (generate_static_covid_data).dates[2]? =
      some (toordinal 2025 1 1 + 7 * ((2 : Nat) : Int)) :=
  C6_dates_weekly.1 2 (by decide)

/-- C7 counterexample: with a cases value outside the int32 range the
bundle is NOT internally consistent with its stored columns: for
`cases = [2^31, 0]` the stored column wraps to `[-2^31, 0]`, so
`total_cases = 2^31` differs from the column sum `-2^31` and
`max_cases = 2^31` is not a member of the stored column. -/
theorem C7_cex :
    ∃ b, save_numpy_data [2 ^ 31, 0] [1] ["a"] = some b ∧
      b.total_cases = 2 ^ 31 ∧
      b.cases = [-2 ^ 31, 0] ∧
      b.total_cases ≠ b.cases.sum ∧
      b.max_cases ∉ b.cases :=
  ⟨_, rfl, by decide, by decide, by decide, by decide⟩

/-- C7 (amended): for non-empty input columns all of whose values lie
in the int32 range `[-2^31, 2^31)` — where the `np.int32` cast is the
identity — the bundle built by `save_numpy_data` is internally
consistent: the stored columns equal the inputs, `weeks_count` is the
length of its `week_labels`, the totals are the sums of its columns,
and the max/min fields are attained members and bounds of its columns.
Outside that range the stored columns wrap (or, on newer numpy, the
call raises `OverflowError`) and the exact scalars can disagree with
the stored columns. -/
theorem C7_bundle_consistent_int32 (cases deaths : List Int) (wl : List String)
    (hc : cases ≠ []) (hd : deaths ≠ [])
    (hc32 : ∀ x ∈ cases, -2 ^ 31 ≤ x ∧ x < 2 ^ 31)
    (hd32 : ∀ x ∈ deaths, -2 ^ 31 ≤ x ∧ x < 2 ^ 31) :
    ∃ b, save_numpy_data cases deaths wl = some b ∧
      b.cases = cases ∧
      b.deaths = deaths ∧
      b.weeks_count = b.week_labels.length ∧
      b.total_cases = b.cases.sum ∧
      b.total_deaths = b.deaths.sum ∧
      b.max_cases ∈ b.cases ∧ (∀ x ∈ b.cases, x ≤ b.max_cases) ∧
      b.max_deaths ∈ b.deaths ∧ (∀ x ∈ b.deaths, x ≤ b.max_deaths) ∧
      b.min_cases ∈ b.cases ∧ (∀ x ∈ b.cases, b.min_cases ≤ x) ∧
      b.min_deaths ∈ b.deaths ∧ (∀ x ∈ b.deaths, b.min_deaths ≤ x) := by
  have mc := map_int32cast_id cases hc32
  have md := map_int32cast_id deaths hd32
  obtain ⟨c, cs, rfl⟩ := List.exists_cons_of_ne_nil hc
  obtain ⟨d, ds, rfl⟩ := List.exists_cons_of_ne_nil hd
  refine ⟨_, rfl, mc, md, (List.length_map _ _).symm,
    ?_, ?_, ?_, ?_, ?_, ?_, ?_, ?_, ?_, ?_⟩
  · show (c :: cs).sum = ((c :: cs).map int32cast).sum
    rw [mc]
  · show (d :: ds).sum = ((d :: ds).map int32cast).sum
    rw [md]
  · show cs.foldl max c ∈ (c :: cs).map int32cast
    rw [mc]; exact foldl_max_mem c cs
  · show ∀ x ∈ (c :: cs).map int32cast, x ≤ cs.foldl max c
    rw [mc]; exact le_foldl_max c cs
  · show ds.foldl max d ∈ (d :: ds).map int32cast
    rw [md]; exact foldl_max_mem d ds
  · show ∀ x ∈ (d :: ds).map int32cast, x ≤ ds.foldl max d
    rw [md]; exact le_foldl_max d ds
  · show cs.foldl min c ∈ (c :: cs).map int32cast
    rw [mc]; exact foldl_min_mem c cs
  · show ∀ x ∈ (c :: cs).map int32cast, cs.foldl min c ≤ x
    rw [mc]; exact foldl_min_le c cs
  · show ds.foldl min d ∈ (d :: ds).map int32cast
    rw [md]; exact foldl_min_mem d ds
  · show ∀ x ∈ (d :: ds).map int32cast, ds.foldl min d ≤ x
    rw [md]; exact foldl_min_le d ds

/-- C7 witness: the amended theorem applied to two concrete in-range
columns. -/
theorem C7_bundle_consistent_int32_witness :
    ∃ b, save_numpy_data [2, 7, 5] [1, 3, 0] ["a", "b", "c"] = some b ∧
      b.cases = [2, 7, 5] ∧
      b.deaths = [1, 3, 0] ∧
      b.weeks_count = b.week_labels.length ∧
      b.total_cases = b.cases.sum ∧
      b.total_deaths = b.deaths.sum ∧
      b.max_cases ∈ b.cases ∧ (∀ x ∈ b.cases, x ≤ b.max_cases) ∧
      b.max_deaths ∈ b.deaths ∧ (∀ x ∈ b.deaths, x ≤ b.max_deaths) ∧
      b.min_cases ∈ b.cases ∧ (∀ x ∈ b.cases, b.min_cases ≤ x) ∧
      b.min_deaths ∈ b.deaths ∧ (∀ x ∈ b.deaths, b.min_deaths ≤ x) :=
  C7_bundle_consistent_int32 [2, 7, 5] [1, 3, 0] ["a", "b", "c"]
    (by decide) (by decide) (by decide) (by decide)

/-- C8: for every width, every trend endpoint pair, every sequence of
sine values and noise draws, and every lagged cases column, the
random-mode generator never emits a cases value below the floor 15000
nor a deaths value below the floor 200. -/
theorem C8_random_floors (W : Nat) (hi lo : ℚ) (sinVals noiseC noiseD : Nat → ℚ)
    (cs : List Int) :
    (∀ x ∈ random_cases W hi lo sinVals noiseC, 15000 ≤ x) ∧
    (∀ x ∈ random_deaths W cs noiseD, 200 ≤ x) := by
  constructor
  · intro x hx
    simp only [random_cases, List.mem_map, List.mem_range] at hx
    obtain ⟨i, -, rfl⟩ := hx
    exact Int.le_floor.mpr (le_trans (by norm_num) (le_max_left _ _))
  · intro x hx
    simp only [random_deaths, List.mem_map, List.mem_range] at hx
    obtain ⟨i, -, rfl⟩ := hx
    exact Int.le_floor.mpr (le_trans (by norm_num) (le_max_left _ _))

/-- C8 witness: the theorem applied at width 3 with zero sine values
and zero noise, at a concrete member of each output column. -/
theorem C8_random_floors_witness :
    (15000 : Int) ≤ 60000 ∧ (200 : Int) ≤ 1000 :=
  ⟨(C8_random_floors 3 60000 20000 (fun _ => 0) (fun _ => 0) (fun _ => 0)
      [60000, 40000, 20000]).1 60000
      (by simp [random_cases, List.range_succ]; norm_num),
   (C8_random_floors 3 60000 20000 (fun _ => 0) (fun _ => 0) (fun _ => 0)
      [60000, 40000, 20000]).2 1000
      (by simp [random_deaths, List.range_succ]; norm_num)⟩

/-- C9: whatever exception message the PNG export fails with,
`save_static_outputs` returns normally (nothing escapes), the HTML
export before it has already been written, and the failure is reported
as a printed warning. -/
theorem C9_png_failure_nonfatal (e : String) :
    (save_static_outputs (some e)).raised = false ∧
    (save_static_outputs (some e)).htmlWritten = true ∧
    ("⚠ Could not save PNG screenshot: " ++ e) ∈
      (save_static_outputs (some e)).printed := by
  simp [save_static_outputs]

/-- C9 witness: the theorem applied to a concrete failure message. -/
theorem C9_png_failure_nonfatal_witness :
    (save_static_outputs (some "no kaleido")).raised = false ∧
    (save_static_outputs (some "no kaleido")).htmlWritten = true ∧
    ("⚠ Could not save PNG screenshot: " ++ "no kaleido") ∈
      (save_static_outputs (some "no kaleido")).printed :=
  C9_png_failure_nonfatal "no kaleido"

/-- C10: the record `create_summary_stats` returns is independent of
its inputs: for any two input pairs with at least 4 entries and a
nonzero last-4 case sum, the results coincide, both being the constant
display record {25463, 1458, 5.7, 89}. -/
theorem C10_summary_constant (cs1 ds1 cs2 ds2 : List Int)
    (_hl1 : 4 ≤ cs1.length) (_hl2 : 4 ≤ cs2.length)
    (hz1 : (lastFour cs1).sum ≠ 0) (hz2 : (lastFour cs2).sum ≠ 0) :
    create_summary_stats cs1 ds1 = create_summary_stats cs2 ds2 ∧
    create_summary_stats cs1 ds1 = .ret [] overrideSummary := by
  simp [create_summary_stats, if_neg hz1, if_neg hz2, overrideSummary]

/-- C10 witness: the theorem applied to two different concrete input
pairs. -/
theorem C10_summary_constant_witness :
    create_summary_stats [1, 2, 3, 4] [9, 9, 9, 9] =
      create_summary_stats [100, 200, 300, 400, 500] [7, 7, 7, 7, 7] ∧
    create_summary_stats [1, 2, 3, 4] [9, 9, 9, 9] = .ret [] overrideSummary :=
  C10_summary_constant [1, 2, 3, 4] [9, 9, 9, 9]
    [100, 200, 300, 400, 500] [7, 7, 7, 7, 7]
    (by decide) (by decide) (by decide) (by decide)

end Dashboard
